import Mathlib

/-!
Verification of the shipment-tracking repository (stockhang102).

The development shallowly embeds the Python source:
* `src/qr_scanner.py` — QR payload parsing (`parse_qr_code`) and the image
  decoding fallback chain (`decode_qr_from_image`);
* `src/database.py` — the shipment store (`save_shipment`,
  `update_shipment_status`, `log_audit`) as a pure state-passing model;
* `src/app.py` — the status-update button handler guarding same-status
  transitions;
* `src/google_sheets.py` — the append-mode spreadsheet push;
* `src/auth.py` / `src/config.py` — the login check against the Users table
  with the static credential fallback.

Machine strings are modelled as Lean `String` (or `List Char` where the
Python code manipulates strings character-wise); timestamps are abstract
`Nat` values passed explicitly to each operation; database/network failures
outside the modelled logic are not represented.
-/

namespace StockHang

/-! ## QR payload parser (src/qr_scanner.py, `parse_qr_code`) -/

/-- Python strings, character-wise. -/
abbrev PyStr := List Char

/-- Whitespace characters stripped by Python's `str.strip()` (ASCII subset). -/
def isPySpace (c : Char) : Bool :=
  c = ' ' || c = '\t' || c = '\n' || c = '\r' || c = '\x0b' || c = '\x0c'

/-- Python `s.strip()`: drop whitespace from both ends. -/
def pyStrip (s : PyStr) : PyStr :=
  ((s.dropWhile isPySpace).reverse.dropWhile isPySpace).reverse

/-- Worker for `s.split(',')`: `acc` holds the current segment reversed. -/
def splitCommaAux : PyStr → PyStr → List PyStr
  | [], acc => [acc.reverse]
  | c :: cs, acc =>
    if c = ',' then acc.reverse :: splitCommaAux cs []
    else splitCommaAux cs (c :: acc)

/-- Python `s.split(',')`: split on every comma, keeping empty segments. -/
def pySplitComma (s : PyStr) : List PyStr := splitCommaAux s []

/-- Python `str.strip()` on `String` values. -/
def pyStripS (s : String) : String := ⟨pyStrip s.data⟩

/-- The parsed QR payload: exactly four positional fields
(`qr_code, imei, device_name, capacity`). -/
structure ParsedQR where
  qr_code : PyStr
  imei : PyStr
  device_name : PyStr
  capacity : PyStr
deriving DecidableEq, Repr

/-- `parse_qr_code` from `src/qr_scanner.py` lines 273-310: `None` or empty
input gives `None`; otherwise split on comma, strip each part, pad to four
parts with empty strings, and take the first four positionally. -/
def parse_qr_code : Option PyStr → Option ParsedQR
  | none => none
  | some s =>
    if s = [] then none
    else
      let parts := (pySplitComma s).map pyStrip
      let padded := parts ++ List.replicate (4 - parts.length) ([] : PyStr)
      some { qr_code := padded.getD 0 []
             imei := padded.getD 1 []
             device_name := padded.getD 2 []
             capacity := padded.getD 3 [] }

/-- Joining the four fields with commas (the 4-field comma-separated
encoding the spec round-trips through the parser). -/
def serializeQR (r : ParsedQR) : PyStr :=
  r.qr_code ++ ',' :: (r.imei ++ ',' :: (r.device_name ++ ',' :: r.capacity))

lemma splitCommaAux_no_comma (s : PyStr) (acc : PyStr) (h : ',' ∉ s) :
    splitCommaAux s acc = [acc.reverse ++ s] := by
  induction s generalizing acc with
  | nil => simp [splitCommaAux]
  | cons c cs ih =>
    have hc : ¬ c = ',' := fun hcc => h (hcc ▸ List.mem_cons_self c cs)
    have hcs : ',' ∉ cs := fun hm => h (List.mem_cons_of_mem c hm)
    simp [splitCommaAux, hc, ih _ hcs]

lemma splitCommaAux_append (a rest : PyStr) (acc : PyStr) (h : ',' ∉ a) :
    splitCommaAux (a ++ ',' :: rest) acc =
      (acc.reverse ++ a) :: splitCommaAux rest [] := by
  induction a generalizing acc with
  | nil => simp [splitCommaAux]
  | cons c cs ih =>
    have hc : ¬ c = ',' := fun hcc => h (hcc ▸ List.mem_cons_self c cs)
    have hcs : ',' ∉ cs := fun hm => h (List.mem_cons_of_mem c hm)
    calc splitCommaAux ((c :: cs) ++ ',' :: rest) acc
        = splitCommaAux (cs ++ ',' :: rest) (c :: acc) := by
          simp [splitCommaAux, hc]
      _ = ((c :: acc).reverse ++ cs) :: splitCommaAux rest [] := ih (c :: acc) hcs
      _ = (acc.reverse ++ c :: cs) :: splitCommaAux rest [] := by simp

lemma pySplitComma_no_comma (s : PyStr) (h : ',' ∉ s) :
    pySplitComma s = [s] := by
  simpa [pySplitComma] using splitCommaAux_no_comma s [] h

/-- Padding a list with copies of the default does not change `getD`. -/
lemma getD_append_replicate (l : List PyStr) (n i : Nat) :
    (l ++ List.replicate n ([] : PyStr)).getD i [] = l.getD i [] := by
  induction l generalizing i with
  | nil =>
    simp only [List.nil_append, List.getD_nil]
    rcases Nat.lt_or_ge i n with h | h
    · have hlt : i < (List.replicate n ([] : PyStr)).length := by simpa using h
      rw [List.getD_eq_getElem _ _ hlt, List.getElem_replicate]
    · rw [List.getD_eq_default]
      simpa using h
  | cons x xs ih =>
    cases i with
    | zero => simp [List.getD]
    | succ j => simpa [List.getD_cons_succ] using ih j

/-- Claim C5: for every non-empty input string the QR payload parser returns
exactly four fields obtained by splitting on comma, trimming whitespace from
each segment, taking the first four segments positionally, padding missing
trailing fields with empty strings and discarding segments beyond the
fourth; an input with no comma yields a single-field code with the other
three fields empty; empty or absent input returns `none`. -/
theorem parse_qr_code_fields (s : PyStr) :
    parse_qr_code none = none ∧
    parse_qr_code (some []) = none ∧
    (s ≠ [] →
      parse_qr_code (some s) =
        some { qr_code := ((pySplitComma s).map pyStrip).getD 0 []
               imei := ((pySplitComma s).map pyStrip).getD 1 []
               device_name := ((pySplitComma s).map pyStrip).getD 2 []
               capacity := ((pySplitComma s).map pyStrip).getD 3 [] }) ∧
    (s ≠ [] → ',' ∉ s →
      parse_qr_code (some s) = some ⟨pyStrip s, [], [], []⟩) := by
  refine ⟨rfl, rfl, ?_, ?_⟩
  · intro hs
    simp only [parse_qr_code, if_neg hs, getD_append_replicate]
  · intro hs hc
    simp [parse_qr_code, if_neg hs, pySplitComma_no_comma s hc, List.getD]

/-- Witness for claim C5 at the concrete inputs "A,B" and "AB". -/
theorem parse_qr_code_fields_witness :
    (['A', ',', 'B'] : PyStr) ≠ [] ∧
    parse_qr_code (some ['A', ',', 'B']) =
      some { qr_code := ((pySplitComma ['A', ',', 'B']).map pyStrip).getD 0 []
             imei := ((pySplitComma ['A', ',', 'B']).map pyStrip).getD 1 []
             device_name := ((pySplitComma ['A', ',', 'B']).map pyStrip).getD 2 []
             capacity := ((pySplitComma ['A', ',', 'B']).map pyStrip).getD 3 [] } ∧
    parse_qr_code (some ['A', 'B']) = some ⟨['A', 'B'], [], [], []⟩ := by
  refine ⟨by decide, (parse_qr_code_fields ['A', ',', 'B']).2.2.1 (by decide), ?_⟩
  have h := (parse_qr_code_fields ['A', 'B']).2.2.2 (by decide) (by decide)
  rw [h]
  decide

/-- Claim C6: for every record whose four fields are comma-free and carry no
leading or trailing whitespace, joining the fields with commas and parsing
the result returns the original record. -/
theorem parse_serializeQR (r : ParsedQR)
    (hc : ',' ∉ r.qr_code ∧ ',' ∉ r.imei ∧ ',' ∉ r.device_name ∧ ',' ∉ r.capacity)
    (hs : pyStrip r.qr_code = r.qr_code ∧ pyStrip r.imei = r.imei ∧
          pyStrip r.device_name = r.device_name ∧ pyStrip r.capacity = r.capacity) :
    parse_qr_code (some (serializeQR r)) = some r := by
  obtain ⟨h1, h2, h3, h4⟩ := hc
  obtain ⟨g1, g2, g3, g4⟩ := hs
  have hsplit : pySplitComma (serializeQR r) =
      [r.qr_code, r.imei, r.device_name, r.capacity] := by
    unfold pySplitComma serializeQR
    rw [splitCommaAux_append _ _ _ h1, splitCommaAux_append _ _ _ h2,
      splitCommaAux_append _ _ _ h3, splitCommaAux_no_comma _ _ h4]
    simp
  have hne : serializeQR r ≠ [] := by
    unfold serializeQR
    intro h
    rcases List.append_eq_nil.mp h with ⟨_, h'⟩
    exact List.cons_ne_nil _ _ h'
  simp only [parse_qr_code, if_neg hne, hsplit, List.map]
  rw [g1, g2, g3, g4]
  simp [List.getD]

/-- Witness for claim C6 at the concrete record (A, B, "", 1). -/
theorem parse_serializeQR_witness :
    (',' ∉ (['A'] : PyStr)) ∧ pyStrip (['A'] : PyStr) = ['A'] ∧
    parse_qr_code (some (serializeQR ⟨['A'], ['B'], [], ['1']⟩)) =
      some ⟨['A'], ['B'], [], ['1']⟩ :=
  ⟨by decide, by decide,
    parse_serializeQR ⟨['A'], ['B'], [], ['1']⟩
      ⟨by decide, by decide, by decide, by decide⟩
      ⟨by decide, by decide, by decide, by decide⟩⟩

/-! ## Shipment store (src/config.py, src/database.py) -/

/-- `DEFAULT_STATUS` from `src/config.py`. -/
def DEFAULT_STATUS : String := "Đang gửi"

/-- `STATUS_VALUES` from `src/config.py`. -/
def STATUS_VALUES : List String := ["Đang gửi", "Đã nhận", "Hư hỏng", "Mất"]

/-- One row of the `ShipmentDetails` table (timestamps as abstract `Nat`). -/
structure Shipment where
  id : Nat
  qr_code : String
  imei : String
  device_name : String
  capacity : String
  supplier : String
  status : String
  sent_time : Nat
  received_time : Option Nat
  created_by : String
  updated_by : Option String
  notes : Option String
deriving DecidableEq, Repr

/-- One row of the `AuditLog` table. -/
structure AuditEntry where
  shipment_id : Nat
  action : String
  old_value : Option String
  new_value : String
  changed_by : String
deriving DecidableEq, Repr

/-- Result dict of `save_shipment`. -/
structure SaveResult where
  success : Bool
  id : Option Nat
  error : Option String
deriving DecidableEq, Repr

/-- Result dict of `update_shipment_status`. -/
structure UpdateResult where
  success : Bool
  error : Option String
deriving DecidableEq, Repr

/-- The persistent state: shipment rows, audit rows, and the AUTOINCREMENT
counter for the next shipment id. -/
structure DbState where
  shipments : List Shipment
  audit : List AuditEntry
  nextId : Nat
deriving DecidableEq, Repr

/-- `save_shipment` from `src/database.py` lines 119-165: inserting a
duplicate `qr_code` violates the UNIQUE constraint and fails; otherwise the
row is inserted with the default status and a CREATED audit entry is
logged. `now` is the CURRENT_TIMESTAMP used for `sent_time`. -/
def save_shipment (st : DbState) (now : Nat)
    (qr_code imei device_name capacity supplier created_by : String)
    (notes : Option String) : SaveResult × DbState :=
  if st.shipments.any (fun s => s.qr_code == qr_code) then
    ({ success := false, id := none, error := some "Mã QR đã tồn tại" }, st)
  else
    let sid := st.nextId
    let sh : Shipment :=
      { id := sid, qr_code := qr_code, imei := imei,
        device_name := device_name, capacity := capacity,
        supplier := supplier, status := DEFAULT_STATUS, sent_time := now,
        received_time := none, created_by := created_by, updated_by := none,
        notes := notes }
    ({ success := true, id := some sid, error := none },
     { shipments := st.shipments ++ [sh]
       audit := st.audit ++
         [{ shipment_id := sid, action := "CREATED", old_value := none,
            new_value := "Created shipment: " ++ qr_code,
            changed_by := created_by }]
       nextId := sid + 1 })

/-- The field updates `update_shipment_status` applies to the matched row:
status and updater always; `received_time` exactly when the new status is
the received value; notes only when non-empty notes were supplied. -/
def applyStatus (now : Nat) (new_status updated_by : String)
    (notes : Option String) (s : Shipment) : Shipment :=
  { s with
    status := new_status
    updated_by := some updated_by
    received_time := if new_status = "Đã nhận" then some now else s.received_time
    notes := match notes with
      | some n => if n = "" then s.notes else some n
      | none => s.notes }

/-- `update_shipment_status` from `src/database.py` lines 264-333: look the
shipment up by `qr_code`; if absent fail, otherwise update the row and
append one STATUS_CHANGED audit entry recording old status, new status and
the actor. -/
def update_shipment_status (st : DbState) (now : Nat)
    (qr_code new_status updated_by : String) (notes : Option String) :
    UpdateResult × DbState :=
  match st.shipments.find? (fun s => s.qr_code == qr_code) with
  | none => ({ success := false, error := some "Phiếu không tồn tại" }, st)
  | some sh =>
    ({ success := true, error := none },
     { shipments := st.shipments.map (fun s =>
         if s.qr_code == qr_code then applyStatus now new_status updated_by notes s
         else s)
       audit := st.audit ++
         [{ shipment_id := sh.id, action := "STATUS_CHANGED",
            old_value := some sh.status, new_value := new_status,
            changed_by := updated_by }]
       nextId := st.nextId })

/-- Outcome of the status-update button in `src/app.py`. -/
inductive TransitionOutcome where
  | applied (r : UpdateResult)
  | warnedSameStatus
deriving DecidableEq, Repr

/-- The status-update button handler from `src/app.py` lines 355-376 (and
identically lines 675-682): only when the selected status differs from the
current status is `update_shipment_status` called; otherwise a warning is
shown and nothing is written. Empty notes are passed as `None`. -/
def update_status_button (st : DbState) (now : Nat) (shipment : Shipment)
    (new_status current_user notes : String) : TransitionOutcome × DbState :=
  if new_status ≠ shipment.status then
    let res := update_shipment_status st now shipment.qr_code new_status
      current_user (if notes = "" then none else some notes)
    (.applied res.1, res.2)
  else
    (.warnedSameStatus, st)

/-- Claim C1: a status-transition request whose requested status equals the
record's current status is rejected as a no-op reported to the caller (a
warning), and the store — hence the record's status, received timestamp,
notes and updated-by — is left unchanged. -/
theorem same_status_transition_rejected (st : DbState) (now : Nat)
    (shipment : Shipment) (current_user notes : String) :
    update_status_button st now shipment shipment.status current_user notes =
      (.warnedSameStatus, st) := by
  simp [update_status_button]

/-- Claim C3: every successful status transition appends exactly one audit
entry tagged STATUS_CHANGED whose old value is the prior status, whose new
value is the requested status and whose actor is the updating user. -/
theorem transition_appends_one_audit (st : DbState) (now : Nat)
    (qr new_status updated_by : String) (notes : Option String) (sh : Shipment)
    (hfind : st.shipments.find? (fun s => s.qr_code == qr) = some sh)
    (hne : new_status ≠ sh.status) :
    (update_shipment_status st now qr new_status updated_by notes).1.success = true ∧
    (update_shipment_status st now qr new_status updated_by notes).2.audit =
      st.audit ++
        [{ shipment_id := sh.id, action := "STATUS_CHANGED",
           old_value := some sh.status, new_value := new_status,
           changed_by := updated_by }] := by
  simp [update_shipment_status, hfind]

/-- A concrete shipment row used by the transition witnesses. -/
def shW : Shipment :=
  { id := 1, qr_code := "Q1", imei := "I1", device_name := "D1",
    capacity := "64GB", supplier := "GHN", status := "Đang gửi",
    sent_time := 0, received_time := none, created_by := "admin",
    updated_by := none, notes := none }

/-- A concrete store holding `shW`, used by the transition witnesses. -/
def stW : DbState := { shipments := [shW], audit := [], nextId := 2 }

/-- Witness for claim C3 at a concrete store and transition. -/
theorem transition_appends_one_audit_witness :
    stW.shipments.find? (fun s => s.qr_code == "Q1") = some shW ∧
    ("Đã nhận" : String) ≠ shW.status ∧
    (update_shipment_status stW 5 "Q1" "Đã nhận" "admin" none).1.success = true ∧
    (update_shipment_status stW 5 "Q1" "Đã nhận" "admin" none).2.audit =
      stW.audit ++
        [{ shipment_id := shW.id, action := "STATUS_CHANGED",
           old_value := some shW.status, new_value := "Đã nhận",
           changed_by := "admin" }] := by
  have h := transition_appends_one_audit stW 5 "Q1" "Đã nhận" "admin" none shW
    (by decide) (by decide)
  exact ⟨by decide, by decide, h.1, h.2⟩

/-- Claim C4: creating a shipment whose code already exists fails with the
duplicate-code error, `success = false`, and the store — hence the existing
record — is left completely unchanged. -/
theorem save_duplicate_rejected (st : DbState) (now : Nat)
    (qr imei device_name capacity supplier created_by : String)
    (notes : Option String)
    (h : st.shipments.any (fun s => s.qr_code == qr) = true) :
    save_shipment st now qr imei device_name capacity supplier created_by notes =
      ({ success := false, id := none, error := some "Mã QR đã tồn tại" }, st) := by
  simp [save_shipment, h]

/-- Witness for claim C4: duplicating code Q1 in the concrete store. -/
theorem save_duplicate_rejected_witness :
    stW.shipments.any (fun s => s.qr_code == "Q1") = true ∧
    save_shipment stW 9 "Q1" "I2" "D2" "128GB" "GHN" "user" none =
      ({ success := false, id := none, error := some "Mã QR đã tồn tại" }, stW) :=
  ⟨by decide, save_duplicate_rejected stW 9 "Q1" "I2" "D2" "128GB" "GHN" "user" none
    (by decide)⟩

/-! ## Operation sequences and the received-timestamp invariant (claim C2) -/

/-- The operations claim C2 quantifies over: create (`save_shipment`) and
status transition (`update_shipment_status`), each with its wall-clock
time. -/
inductive DbOp where
  | create (now : Nat)
      (qr imei device_name capacity supplier created_by : String)
      (notes : Option String)
  | transition (now : Nat) (qr new_status updated_by : String)
      (notes : Option String)
deriving Repr

/-- State effect of one operation. -/
def applyOp (st : DbState) : DbOp → DbState
  | .create now qr imei dn cap sup cb notes =>
    (save_shipment st now qr imei dn cap sup cb notes).2
  | .transition now qr ns ub notes =>
    (update_shipment_status st now qr ns ub notes).2

/-- The empty store (AUTOINCREMENT starts at 1). -/
def initState : DbState := { shipments := [], audit := [], nextId := 1 }

/-- Run a sequence of operations from the empty store. -/
def execOps (ops : List DbOp) : DbState := ops.foldl applyOp initState

/-- Look a shipment up by id. -/
def findShip (st : DbState) (i : Nat) : Option Shipment :=
  st.shipments.find? (fun s => s.id == i)

/-- Shipment `i` had status "Đã nhận" after some prefix of the operations. -/
def everReceived (ops : List DbOp) (i : Nat) : Prop :=
  ∃ n sh, findShip (execOps (ops.take n)) i = some sh ∧ sh.status = "Đã nhận"

/-- The inductive invariant: ids are below the counter, and a received
status always comes with a non-null received timestamp. -/
def WF (st : DbState) : Prop :=
  (∀ sh ∈ st.shipments, sh.id < st.nextId) ∧
  (∀ sh ∈ st.shipments, sh.status = "Đã nhận" → sh.received_time ≠ none)

lemma WF_init : WF initState :=
  ⟨by simp [initState], by simp [initState]⟩

lemma WF_applyOp (st : DbState) (op : DbOp) (h : WF st) : WF (applyOp st op) := by
  obtain ⟨hid, hrec⟩ := h
  cases op with
  | create now qr imei dn cap sup cb notes =>
    by_cases hdup : st.shipments.any (fun s => s.qr_code == qr) = true
    · simpa [applyOp, save_shipment, hdup] using ⟨hid, hrec⟩
    · simp only [applyOp, save_shipment, hdup, if_false, Bool.false_eq_true]
      constructor
      · intro sh hmem
        rcases List.mem_append.mp hmem with hm | hm
        · exact Nat.lt_succ_of_lt (hid sh hm)
        · simp only [List.mem_singleton] at hm
          subst hm
          exact Nat.lt_succ_self _
      · intro sh hmem hst
        rcases List.mem_append.mp hmem with hm | hm
        · exact hrec sh hm hst
        · simp only [List.mem_singleton] at hm
          subst hm
          simp only [DEFAULT_STATUS] at hst
          exact absurd hst (show ¬ DEFAULT_STATUS = "Đã nhận" by decide)
  | transition now qr ns ub notes =>
    cases hf : st.shipments.find? (fun s => s.qr_code == qr) with
    | none => simpa [applyOp, update_shipment_status, hf] using ⟨hid, hrec⟩
    | some tgt =>
      simp only [applyOp, update_shipment_status, hf]
      constructor
      · intro sh hmem
        rcases List.mem_map.mp hmem with ⟨s, hs, hfs⟩
        have : sh.id = s.id := by
          subst hfs
          by_cases hq : s.qr_code == qr <;> simp [hq, applyStatus]
        rw [this]
        exact hid s hs
      · intro sh hmem hst
        rcases List.mem_map.mp hmem with ⟨s, hs, hfs⟩
        by_cases hq : (s.qr_code == qr) = true
        · subst hfs
          simp only [hq, if_true, applyStatus] at hst ⊢
          by_cases hns : ns = "Đã nhận"
          · simp [hns]
          · exact absurd hst hns
        · rw [← hfs] at hst ⊢
          simp only [hq, if_false] at hst ⊢
          exact hrec s hs hst

lemma WF_foldl (ops : List DbOp) :
    ∀ st, WF st → WF (ops.foldl applyOp st) := by
  induction ops with
  | nil => intro st h; simpa using h
  | cons op rest ih =>
    intro st h
    exact ih (applyOp st op) (WF_applyOp st op h)

lemma WF_execOps (ops : List DbOp) : WF (execOps ops) :=
  WF_foldl ops initState WF_init

lemma nextId_le_applyOp (st : DbState) (op : DbOp) :
    st.nextId ≤ (applyOp st op).nextId := by
  cases op with
  | create now qr imei dn cap sup cb notes =>
    by_cases hdup : st.shipments.any (fun s => s.qr_code == qr) = true <;>
      simp [applyOp, save_shipment, hdup]
  | transition now qr ns ub notes =>
    cases hf : st.shipments.find? (fun s => s.qr_code == qr) <;>
      simp [applyOp, update_shipment_status, hf]

lemma nextId_le_foldl (ops : List DbOp) :
    ∀ st : DbState, st.nextId ≤ (ops.foldl applyOp st).nextId := by
  induction ops with
  | nil => intro st; simp
  | cons op rest ih =>
    intro st
    exact le_trans (nextId_le_applyOp st op) (ih (applyOp st op))

lemma execOps_concat (l : List DbOp) (op : DbOp) :
    execOps (l ++ [op]) = applyOp (execOps l) op := by
  simp [execOps, List.foldl_append]

lemma execOps_take_drop (ops : List DbOp) (n : Nat) :
    execOps ops = (ops.drop n).foldl applyOp (execOps (ops.take n)) := by
  unfold execOps
  conv_lhs => rw [← List.take_append_drop n ops]
  rw [List.foldl_append]

lemma findShip_none_of_ge (st : DbState) (i : Nat) (hwf : WF st)
    (h : st.nextId ≤ i) : findShip st i = none := by
  unfold findShip
  cases hf : st.shipments.find? (fun s => s.id == i) with
  | none => rfl
  | some x =>
    have hm := List.mem_of_find?_eq_some hf
    have hp := List.find?_some hf
    have hx : x.id = i := by simpa using hp
    have := hwf.1 x hm
    omega

lemma not_everReceived_of_ge (l : List DbOp) (i : Nat)
    (h : (execOps l).nextId ≤ i) : ¬ everReceived l i := by
  rintro ⟨n, sh, hf, _⟩
  have hp : (execOps (l.take n)).nextId ≤ (execOps l).nextId := by
    rw [execOps_take_drop l n]
    exact nextId_le_foldl _ _
  have hnone := findShip_none_of_ge (execOps (l.take n)) i
    (WF_execOps (l.take n)) (le_trans hp h)
  rw [hnone] at hf
  exact Option.noConfusion hf

lemma find?_map_id_preserve (l : List Shipment) (f : Shipment → Shipment)
    (hf : ∀ s, (f s).id = s.id) (i : Nat) :
    (l.map f).find? (fun s => s.id == i) =
      (l.find? (fun s => s.id == i)).map f := by
  rw [List.find?_map]
  have heq : ((fun s : Shipment => s.id == i) ∘ f) = fun s => s.id == i := by
    funext s
    simp [Function.comp, hf]
  rw [heq]

lemma everReceived_concat (l : List DbOp) (op : DbOp) (i : Nat) :
    everReceived (l ++ [op]) i ↔
      everReceived l i ∨
        ∃ sh, findShip (execOps (l ++ [op])) i = some sh ∧
          sh.status = "Đã nhận" := by
  constructor
  · rintro ⟨n, sh, hfind, hst⟩
    by_cases hn : n ≤ l.length
    · exact Or.inl ⟨n, sh, by rwa [List.take_append_of_le_length hn] at hfind, hst⟩
    · refine Or.inr ⟨sh, ?_, hst⟩
      have hfull : (l ++ [op]).take n = l ++ [op] := by
        apply List.take_of_length_le
        simp only [List.length_append, List.length_singleton]
        omega
      rwa [hfull] at hfind
  · rintro (⟨n, sh, hfind, hst⟩ | ⟨sh, hfind, hst⟩)
    · by_cases hn : n ≤ l.length
      · exact ⟨n, sh, by rwa [List.take_append_of_le_length hn], hst⟩
      · have hl : l.take n = l := List.take_of_length_le (by omega)
        refine ⟨l.length, sh, ?_, hst⟩
        rw [List.take_append_of_le_length (Nat.le_refl _), List.take_length]
        rwa [hl] at hfind
    · exact ⟨(l ++ [op]).length, sh, by rwa [List.take_length], hst⟩

lemma save_shipment_shipments_new (st : DbState) (now : Nat)
    (qr imei dn cap sup cb : String) (notes : Option String)
    (hdup : ¬ st.shipments.any (fun s => s.qr_code == qr) = true) :
    (save_shipment st now qr imei dn cap sup cb notes).2.shipments =
      st.shipments ++
        [{ id := st.nextId, qr_code := qr, imei := imei, device_name := dn,
           capacity := cap, supplier := sup, status := DEFAULT_STATUS,
           sent_time := now, received_time := none, created_by := cb,
           updated_by := none, notes := notes }] := by
  simp [save_shipment, hdup]

lemma update_status_shipments_found (st : DbState) (now : Nat)
    (qr ns ub : String) (notes : Option String) (tgt : Shipment)
    (hf : st.shipments.find? (fun s => s.qr_code == qr) = some tgt) :
    (update_shipment_status st now qr ns ub notes).2.shipments =
      st.shipments.map (fun s =>
        if s.qr_code == qr then applyStatus now ns ub notes s else s) := by
  simp [update_shipment_status, hf]

/-- Claim C2: over any sequence of create and status-transition operations,
a shipment's received timestamp is stamped with the operation's current
time exactly when the requested status is "Đã nhận", and the received
timestamp is non-null if and only if the shipment's status has been
"Đã nhận" after at least one prefix of the operations (a transition away
from "Đã nhận" does not clear it). -/
theorem received_time_iff_ever_received (ops : List DbOp) (i : Nat)
    (sh : Shipment) (h : findShip (execOps ops) i = some sh) :
    (sh.received_time ≠ none ↔ everReceived ops i) ∧
    (∀ (now : Nat) (new_status updated_by : String) (notes : Option String)
      (s : Shipment),
      (applyStatus now new_status updated_by notes s).received_time =
        if new_status = "Đã nhận" then some now else s.received_time) := by
  refine ⟨?_, fun now ns ub notes s => rfl⟩
  induction ops using List.reverseRecOn generalizing sh with
  | nil =>
    simp [execOps, initState, findShip] at h
  | append_singleton l op ih =>
    have hwf := WF_execOps l
    have hQ : (∃ sh₂, findShip (execOps (l ++ [op])) i = some sh₂ ∧
        sh₂.status = "Đã nhận") ↔ sh.status = "Đã nhận" := by
      constructor
      · rintro ⟨sh₂, h₂, hst⟩
        rw [h] at h₂
        injection h₂ with he
        rwa [he]
      · intro hst
        exact ⟨sh, h, hst⟩
    rw [everReceived_concat, hQ]
    rw [execOps_concat] at h
    cases op with
    | create now qr imei dn cap sup cb notes =>
      by_cases hdup : (execOps l).shipments.any (fun s => s.qr_code == qr) = true
      · have hsame : applyOp (execOps l) (.create now qr imei dn cap sup cb notes) =
            execOps l := by
          simp [applyOp, save_shipment, hdup]
        rw [hsame] at h
        have hiff := ih sh h
        have hA : sh.status = "Đã nhận" → sh.received_time ≠ none :=
          hwf.2 sh (List.mem_of_find?_eq_some h)
        tauto
      · unfold applyOp findShip at h
        rw [save_shipment_shipments_new _ _ _ _ _ _ _ _ _ hdup,
          List.find?_append] at h
        cases hfl : (execOps l).shipments.find? (fun s => s.id == i) with
        | some sh₀ =>
          rw [hfl] at h
          simp only [Option.or_some] at h
          injection h with he
          subst he
          have hfind₀ : findShip (execOps l) i = some sh₀ := hfl
          have hiff := ih sh₀ hfind₀
          have hA : sh₀.status = "Đã nhận" → sh₀.received_time ≠ none :=
            hwf.2 sh₀ (List.mem_of_find?_eq_some hfind₀)
          tauto
        | none =>
          rw [hfl] at h
          simp only [Option.none_or] at h
          by_cases hni : ((execOps l).nextId == i) = true
          · rw [List.find?_cons_of_pos _ (by simpa using hni)] at h
            injection h with he
            subst he
            have hi : (execOps l).nextId = i := by simpa using hni
            have hnever : ¬ everReceived l i :=
              not_everReceived_of_ge l i (le_of_eq hi)
            constructor
            · intro hrt
              exact absurd rfl hrt
            · rintro (he | hst)
              · exact absurd he hnever
              · exact absurd hst (show ¬ DEFAULT_STATUS = "Đã nhận" by decide)
          · rw [List.find?_cons_of_neg _ (by simpa using hni)] at h
            simp at h
    | transition now qr ns ub notes =>
      cases hf : (execOps l).shipments.find? (fun s => s.qr_code == qr) with
      | none =>
        have hsame : applyOp (execOps l) (.transition now qr ns ub notes) =
            execOps l := by
          simp [applyOp, update_shipment_status, hf]
        rw [hsame] at h
        have hiff := ih sh h
        have hA : sh.status = "Đã nhận" → sh.received_time ≠ none :=
          hwf.2 sh (List.mem_of_find?_eq_some h)
        tauto
      | some tgt =>
        unfold applyOp findShip at h
        rw [update_status_shipments_found _ _ _ _ _ _ tgt hf,
          find?_map_id_preserve _ _ ?hid i] at h
        case hid =>
          intro s
          by_cases hq : (s.qr_code == qr) = true <;> simp [hq, applyStatus]
        cases hfl : (execOps l).shipments.find? (fun s => s.id == i) with
        | none =>
          rw [hfl] at h
          simp at h
        | some sh₀ =>
          rw [hfl] at h
          simp only [Option.map_some'] at h
          injection h with he
          have hfind₀ : findShip (execOps l) i = some sh₀ := hfl
          have hiff := ih sh₀ hfind₀
          have hA : sh₀.status = "Đã nhận" → sh₀.received_time ≠ none :=
            hwf.2 sh₀ (List.mem_of_find?_eq_some hfind₀)
          by_cases hq : (sh₀.qr_code == qr) = true
          · rw [hq] at he
            simp only [if_true] at he
            subst he
            by_cases hns : ns = "Đã nhận"
            · constructor
              · intro _
                right
                simp [applyStatus, hns]
              · intro _
                simp [applyStatus, hns]
            · have hrt : (applyStatus now ns ub notes sh₀).received_time =
                  sh₀.received_time := by
                simp [applyStatus, hns]
              have hstt : (applyStatus now ns ub notes sh₀).status = ns := rfl
              rw [hrt, hstt]
              constructor
              · intro hrt0
                exact Or.inl (hiff.mp hrt0)
              · rintro (he2 | hcontra)
                · exact hiff.mpr he2
                · exact absurd hcontra hns
          · rw [Bool.not_eq_true] at hq
            rw [hq] at he
            simp only [if_false, Bool.false_eq_true] at he
            subst he
            tauto

/-- Concrete operation sequence for the claim C2 witness: one create
followed by one transition to "Đã nhận". -/
def opsW : List DbOp :=
  [.create 3 "QW" "I" "D" "64" "GHN" "admin" none,
   .transition 7 "QW" "Đã nhận" "admin" none]

/-- The shipment produced by `opsW`. -/
def shRecvW : Shipment :=
  { id := 1, qr_code := "QW", imei := "I", device_name := "D",
    capacity := "64", supplier := "GHN", status := "Đã nhận",
    sent_time := 3, received_time := some 7, created_by := "admin",
    updated_by := some "admin", notes := none }

/-- Witness for claim C2 at the concrete operation sequence `opsW`. -/
theorem received_time_iff_ever_received_witness :
    findShip (execOps opsW) 1 = some shRecvW ∧
    (shRecvW.received_time ≠ none ↔ everReceived opsW 1) :=
  ⟨by decide, (received_time_iff_ever_received opsW 1 shRecvW (by decide)).1⟩

/-! ## QR decode pipeline (src/qr_scanner.py, `decode_qr_from_image`)

The image primitives (OpenCV calls and pyzbar) are modelled as an
environment of abstract functions over an abstract image type; a call that
raises is an `Except.error`. -/

/-- Environment of decoding primitives over an abstract image type.
`detectMulti` models `cv2.QRCodeDetector.detectAndDecodeMulti` (the retval
flag and the decoded strings), `detectSingle` models `detectAndDecode`,
`pyzbarDecode` models `pyzbar.decode` (the payloads of the detected
objects), `isColor` models the `len(shape) == 3` test, and the remaining
fields model the preprocessing calls. -/
structure DecodeEnv (Img : Type) where
  cv2Avail : Bool
  pyzbarAvail : Bool
  isColor : Img → Bool
  cvtGray : Img → Img
  resize2x : Img → Img
  thresh127 : Img → Img
  adaptiveGauss : Img → Img
  detectMulti : Img → Except Unit (Bool × List String)
  detectSingle : Img → Except Unit String
  pyzbarDecode : Img → Except Unit (List String)

variable {Img : Type}

/-- Grayscale conversion applied only to 3-channel images
(`if len(image_array.shape) == 3: gray = cv2.cvtColor(...)`). -/
def grayOf (e : DecodeEnv Img) (img : Img) : Img :=
  if e.isColor img then e.cvtGray img else img

/-- Method 1 of `decode_qr_from_image` (lines 49-74): one try block running
`detectAndDecodeMulti` on the grayscale buffer, returning its first decoded
string when non-empty, otherwise retrying `detectAndDecode` on the same
buffer; an exception anywhere in the block yields nothing. -/
def opencvMethod (e : DecodeEnv Img) (img : Img) : Option String :=
  if e.cv2Avail then
    let g := grayOf e img
    match e.detectMulti g with
    | .error _ => none
    | .ok m =>
      let r1 : String := if m.1 && !m.2.isEmpty then m.2.headD "" else ""
      if r1 ≠ "" then some r1
      else
        match e.detectSingle g with
        | .error _ => none
        | .ok d => if d ≠ "" then some d else none
  else none

/-- Method 2 of `decode_qr_from_image` (lines 77-85): pyzbar on the original
buffer. When the object list is non-empty its first payload is returned
unconditionally — even when that payload is the empty string. -/
def pyzbarMethod (e : DecodeEnv Img) (img : Img) : Option String :=
  if e.pyzbarAvail then
    match e.pyzbarDecode img with
    | .ok objs => if objs.isEmpty then none else some (objs.headD "")
    | .error _ => none
  else none

/-- `decode_grayscale_opencv` (lines 115-131). -/
def decode_grayscale_opencv (e : DecodeEnv Img) (img : Img) : Option String :=
  if e.cv2Avail then
    match e.detectSingle (grayOf e img) with
    | .ok d => if d ≠ "" then some d else none
    | .error _ => none
  else none

/-- `decode_resized_opencv` (lines 134-152): 2× cubic upscaling of the
original buffer, then the single detector — with no grayscale conversion
after the resize. -/
def decode_resized_opencv (e : DecodeEnv Img) (img : Img) : Option String :=
  if e.cv2Avail then
    match e.detectSingle (e.resize2x img) with
    | .ok d => if d ≠ "" then some d else none
    | .error _ => none
  else none

/-- `decode_binarized_opencv` (lines 155-183): grayscale, then fixed
threshold 127 first and adaptive Gaussian second, one try block. -/
def decode_binarized_opencv (e : DecodeEnv Img) (img : Img) : Option String :=
  if e.cv2Avail then
    let g := grayOf e img
    match e.detectSingle (e.thresh127 g) with
    | .error _ => none
    | .ok d =>
      if d ≠ "" then some d
      else
        match e.detectSingle (e.adaptiveGauss g) with
        | .error _ => none
        | .ok d2 => if d2 ≠ "" then some d2 else none
  else none

/-- `decode_qr_from_image` (lines 30-112): OpenCV multi/single first, then
pyzbar, then the three preprocessing variants, first hit returned. -/
def decode_qr_from_image (e : DecodeEnv Img) (img : Img) : Option String :=
  match opencvMethod e img with
  | some r => some r
  | none =>
    match pyzbarMethod e img with
    | some r => some r
    | none =>
      if e.cv2Avail then
        match decode_grayscale_opencv e img with
        | some r => some r
        | none =>
          match decode_resized_opencv e img with
          | some r => some r
          | none =>
            match decode_binarized_opencv e img with
            | some r => some r
            | none => none
      else none

/-! ### The chain as claim C7 words it, and as the code actually behaves -/

/-- First strategy result that is a non-empty string (the claim's "the first
strategy yielding a non-empty string is returned"). -/
def firstNonEmpty : List (Option String) → Option String
  | [] => none
  | r :: rest =>
    match r with
    | some s => if s ≠ "" then some s else firstNonEmpty rest
    | none => firstNonEmpty rest

/-- Strategy 1 as the claim words it: multi-code call on the grayscale
buffer, then single-code call on the same buffer. -/
def claimedPrimary (e : DecodeEnv Img) (img : Img) : Option String :=
  match e.detectMulti (grayOf e img) with
  | .error _ => none
  | .ok m =>
    let r1 : String := if m.1 && !m.2.isEmpty then m.2.headD "" else ""
    if r1 ≠ "" then some r1
    else
      match e.detectSingle (grayOf e img) with
      | .error _ => none
      | .ok d => some d

/-- Strategy 2 as the claim words it: the fallback library on the original
buffer, yielding its first payload. -/
def claimedFallbackLib (e : DecodeEnv Img) (img : Img) : Option String :=
  match e.pyzbarDecode img with
  | .ok objs => if objs.isEmpty then none else some (objs.headD "")
  | .error _ => none

/-- Preprocessing variant (a) as the claim words it: plain grayscale. -/
def claimedGrayscaleVariant (e : DecodeEnv Img) (img : Img) : Option String :=
  match e.detectSingle (grayOf e img) with
  | .ok d => some d
  | .error _ => none

/-- Preprocessing variant (b) as the claim words it: 2× cubic upscaling
THEN grayscale, through the primary detector. -/
def claimedUpscaleVariant (e : DecodeEnv Img) (img : Img) : Option String :=
  match e.detectSingle (grayOf e (e.resize2x img)) with
  | .ok d => some d
  | .error _ => none

/-- Preprocessing variant (c) as the claim words it: fixed threshold 127
first, then adaptive Gaussian. -/
def claimedBinarizeVariant (e : DecodeEnv Img) (img : Img) : Option String :=
  match e.detectSingle (e.thresh127 (grayOf e img)) with
  | .error _ => none
  | .ok d =>
    if d ≠ "" then some d
    else
      match e.detectSingle (e.adaptiveGauss (grayOf e img)) with
      | .error _ => none
      | .ok d2 => some d2

/-- The pipeline exactly as claim C7 describes it: the listed strategies in
order, first non-empty string wins. -/
def claimedPipeline (e : DecodeEnv Img) (img : Img) : Option String :=
  firstNonEmpty
    [claimedPrimary e img, claimedFallbackLib e img,
     claimedGrayscaleVariant e img, claimedUpscaleVariant e img,
     claimedBinarizeVariant e img]

/-- Keep only non-empty results (the emptiness test `if result:` that the
code applies to every strategy except the pyzbar fallback). -/
def nonEmptyOnly : Option String → Option String
  | some s => if s ≠ "" then some s else none
  | none => none

/-- First strategy that stops the chain. -/
def firstSome : List (Option String) → Option String
  | [] => none
  | some s :: _ => some s
  | none :: rest => firstSome rest

/-- Variant (b) as the code implements it: 2× cubic upscaling of the
original buffer with no grayscale conversion afterwards. -/
def amendedUpscaleVariant (e : DecodeEnv Img) (img : Img) : Option String :=
  match e.detectSingle (e.resize2x img) with
  | .ok d => some d
  | .error _ => none

/-- The chain as the code actually behaves (claim C7 amended): same order,
but the upscaling variant is not followed by grayscale conversion, and a
pyzbar detection stops the chain even when its payload is empty. -/
def amendedPipeline (e : DecodeEnv Img) (img : Img) : Option String :=
  firstSome
    [nonEmptyOnly (claimedPrimary e img),
     claimedFallbackLib e img,
     nonEmptyOnly (claimedGrayscaleVariant e img),
     nonEmptyOnly (amendedUpscaleVariant e img),
     nonEmptyOnly (claimedBinarizeVariant e img)]

/-- Concrete environment refuting claim C7 as stated: image 0 is grayscale,
upscaling produces the color image 1, and only image 1 decodes (to "X").
The code decodes the resized buffer directly and finds "X"; the claimed
chain grayscales after upscaling (image 11) and finds nothing. -/
def cexEnv : DecodeEnv Nat :=
  { cv2Avail := true
    pyzbarAvail := true
    isColor := fun n => n == 1
    cvtGray := fun n => n + 10
    resize2x := fun _ => 1
    thresh127 := fun _ => 3
    adaptiveGauss := fun _ => 4
    detectMulti := fun _ => .ok (false, [])
    detectSingle := fun n => .ok (if n == 1 then "X" else "")
    pyzbarDecode := fun _ => .ok [] }

/-- Claim C7 counterexample: with both libraries available, the decode
pipeline differs from the chain the claim describes — the code returns "X"
from the upscaled (non-grayscaled) buffer while the claimed chain (with
grayscale after upscaling) finds nothing. -/
theorem decode_order_counterexample :
    cexEnv.cv2Avail = true ∧ cexEnv.pyzbarAvail = true ∧
    decode_qr_from_image cexEnv 0 = some "X" ∧
    claimedPipeline cexEnv 0 = none ∧
    decode_qr_from_image cexEnv 0 ≠ claimedPipeline cexEnv 0 := by
  refine ⟨rfl, rfl, rfl, rfl, ?_⟩
  decide

lemma opencvMethod_eq (e : DecodeEnv Img) (img : Img)
    (hcv : e.cv2Avail = true) :
    opencvMethod e img = nonEmptyOnly (claimedPrimary e img) := by
  unfold opencvMethod claimedPrimary
  simp only [hcv, if_true]
  cases hm : e.detectMulti (grayOf e img) with
  | error u => rfl
  | ok m =>
    by_cases hr : (if m.1 && !m.2.isEmpty then m.2.headD "" else "") = ""
    · simp only [hr, ne_eq, not_true_eq_false, if_false]
      cases hs : e.detectSingle (grayOf e img) with
      | error u => rfl
      | ok d => by_cases hd : d = "" <;> simp [nonEmptyOnly, hd]
    · simp only [ne_eq, hr, not_false_iff, if_true, nonEmptyOnly]

lemma pyzbarMethod_eq (e : DecodeEnv Img) (img : Img)
    (hpz : e.pyzbarAvail = true) :
    pyzbarMethod e img = claimedFallbackLib e img := by
  unfold pyzbarMethod claimedFallbackLib
  rw [hpz]
  simp

lemma decode_grayscale_eq (e : DecodeEnv Img) (img : Img)
    (hcv : e.cv2Avail = true) :
    decode_grayscale_opencv e img = nonEmptyOnly (claimedGrayscaleVariant e img) := by
  unfold decode_grayscale_opencv claimedGrayscaleVariant
  rw [hcv]
  cases hs : e.detectSingle (grayOf e img) with
  | error u => simp [nonEmptyOnly]
  | ok d => simp [nonEmptyOnly]

lemma decode_resized_eq (e : DecodeEnv Img) (img : Img)
    (hcv : e.cv2Avail = true) :
    decode_resized_opencv e img = nonEmptyOnly (amendedUpscaleVariant e img) := by
  unfold decode_resized_opencv amendedUpscaleVariant
  rw [hcv]
  cases hs : e.detectSingle (e.resize2x img) with
  | error u => simp [nonEmptyOnly]
  | ok d => simp [nonEmptyOnly]

lemma decode_binarized_eq (e : DecodeEnv Img) (img : Img)
    (hcv : e.cv2Avail = true) :
    decode_binarized_opencv e img = nonEmptyOnly (claimedBinarizeVariant e img) := by
  unfold decode_binarized_opencv claimedBinarizeVariant
  simp only [hcv, if_true]
  cases hs : e.detectSingle (e.thresh127 (grayOf e img)) with
  | error u => rfl
  | ok d =>
    by_cases hd : d = ""
    · simp only [hd, ne_eq, not_true_eq_false, if_false]
      cases hs2 : e.detectSingle (e.adaptiveGauss (grayOf e img)) with
      | error u => rfl
      | ok d2 => by_cases hd2 : d2 = "" <;> simp [nonEmptyOnly, hd2]
    · simp [nonEmptyOnly, hd]

/-- Claim C7 amended: with both libraries available the decode pipeline
equals the ordered chain — primary detector multi then single on the
grayscale buffer, pyzbar on the original buffer (whose detection is
returned even with an empty payload), then plain grayscale, 2× cubic
upscaling (without grayscale conversion), and binarization with fixed
threshold 127 before adaptive Gaussian — where the first strategy that
yields a result stops the chain. -/
theorem decode_order_amended (e : DecodeEnv Img) (img : Img)
    (hcv : e.cv2Avail = true) (hpz : e.pyzbarAvail = true) :
    decode_qr_from_image e img = amendedPipeline e img := by
  unfold decode_qr_from_image amendedPipeline
  rw [opencvMethod_eq e img hcv, pyzbarMethod_eq e img hpz,
    decode_grayscale_eq e img hcv, decode_resized_eq e img hcv,
    decode_binarized_eq e img hcv, hcv]
  cases nonEmptyOnly (claimedPrimary e img) with
  | some r => simp [firstSome]
  | none =>
    simp only [firstSome]
    cases claimedFallbackLib e img with
    | some r => simp [firstSome]
    | none =>
      simp only [firstSome, if_true]
      cases nonEmptyOnly (claimedGrayscaleVariant e img) with
      | some r => simp [firstSome]
      | none =>
        simp only [firstSome]
        cases nonEmptyOnly (amendedUpscaleVariant e img) with
        | some r => simp [firstSome]
        | none =>
          simp only [firstSome]
          cases nonEmptyOnly (claimedBinarizeVariant e img) with
          | some r => simp [firstSome]
          | none => simp [firstSome]

/-- Witness for the amended claim C7 at the concrete environment. -/
theorem decode_order_amended_witness :
    cexEnv.cv2Avail = true ∧ cexEnv.pyzbarAvail = true ∧
    decode_qr_from_image cexEnv 0 = amendedPipeline cexEnv 0 :=
  ⟨rfl, rfl, decode_order_amended cexEnv 0 rfl rfl⟩

/-- Claim C8: when no strategy finds a QR code — every detection call
either raises (modelled as `Except.error`, caught and treated as finding
nothing) or yields an empty result — the decode operation returns `none`
rather than propagating the exception. -/
theorem decode_none_when_nothing_found (e : DecodeEnv Img) (img : Img)
    (hMulti : ∀ p, e.detectMulti (grayOf e img) = .ok p →
      p.1 = false ∨ p.2 = [] ∨ p.2.headD "" = "")
    (hSingleG : ∀ s, e.detectSingle (grayOf e img) = .ok s → s = "")
    (hPyz : ∀ l, e.pyzbarDecode img = .ok l → l = [])
    (hSingleR : ∀ s, e.detectSingle (e.resize2x img) = .ok s → s = "")
    (hSingleB : ∀ s, e.detectSingle (e.thresh127 (grayOf e img)) = .ok s → s = "")
    (hSingleA : ∀ s, e.detectSingle (e.adaptiveGauss (grayOf e img)) = .ok s → s = "") :
    decode_qr_from_image e img = none := by
  have h1 : opencvMethod e img = none := by
    unfold opencvMethod
    by_cases hcv : e.cv2Avail = true
    · simp only [hcv, if_true]
      cases hm : e.detectMulti (grayOf e img) with
      | error u => rfl
      | ok m =>
        have hr : (if m.1 && !m.2.isEmpty then m.2.headD "" else "") = "" := by
          rcases hMulti m hm with h | h | h
          · simp [h]
          · simp [h]
          · rw [List.headD_eq_head?_getD] at h
            by_cases hc : (m.1 && !m.2.isEmpty) = true <;> simp [hc, h]
        simp only [hr, ne_eq, not_true_eq_false, if_false]
        cases hs : e.detectSingle (grayOf e img) with
        | error u => rfl
        | ok s =>
          rw [hSingleG s hs]
          simp
    · simp [hcv]
  have h2 : pyzbarMethod e img = none := by
    unfold pyzbarMethod
    by_cases hpz : e.pyzbarAvail = true
    · rw [hpz]
      simp only [if_true]
      cases hp : e.pyzbarDecode img with
      | error u => simp
      | ok l =>
        rw [hPyz l hp]
        simp
    · simp [hpz]
  have h3 : decode_grayscale_opencv e img = none := by
    unfold decode_grayscale_opencv
    by_cases hcv : e.cv2Avail = true
    · rw [hcv]
      simp only [if_true]
      cases hs : e.detectSingle (grayOf e img) with
      | error u => simp
      | ok s => rw [hSingleG s hs]; simp
    · simp [hcv]
  have h4 : decode_resized_opencv e img = none := by
    unfold decode_resized_opencv
    by_cases hcv : e.cv2Avail = true
    · rw [hcv]
      simp only [if_true]
      cases hs : e.detectSingle (e.resize2x img) with
      | error u => simp
      | ok s => rw [hSingleR s hs]; simp
    · simp [hcv]
  have h5 : decode_binarized_opencv e img = none := by
    unfold decode_binarized_opencv
    by_cases hcv : e.cv2Avail = true
    · rw [hcv]
      simp only [if_true]
      cases hs : e.detectSingle (e.thresh127 (grayOf e img)) with
      | error u => simp
      | ok s =>
        rw [hSingleB s hs]
        simp only [ne_eq, not_true_eq_false, reduceIte]
        cases hs2 : e.detectSingle (e.adaptiveGauss (grayOf e img)) with
        | error u => simp
        | ok s2 => rw [hSingleA s2 hs2]; simp
    · simp [hcv]
  unfold decode_qr_from_image
  rw [h1, h2]
  by_cases hcv : e.cv2Avail = true
  · rw [hcv]
    simp only [if_true]
    rw [h3, h4, h5]
  · simp [hcv]

/-- Environment in which every detection call raises, for the C8 witness. -/
def errEnv : DecodeEnv Nat :=
  { cv2Avail := true
    pyzbarAvail := true
    isColor := fun _ => false
    cvtGray := id
    resize2x := id
    thresh127 := id
    adaptiveGauss := id
    detectMulti := fun _ => .error ()
    detectSingle := fun _ => .error ()
    pyzbarDecode := fun _ => .error () }

/-- Witness for claim C8: in an environment where every detection call
raises, the decode operation returns `none`. -/
theorem decode_none_when_nothing_found_witness :
    errEnv.detectMulti (grayOf errEnv 0) = .error () ∧
    decode_qr_from_image errEnv 0 = none := by
  refine ⟨rfl, ?_⟩
  exact decode_none_when_nothing_found errEnv 0
    (fun p hp => by simp [errEnv, grayOf] at hp)
    (fun s hs => by simp [errEnv, grayOf] at hs)
    (fun l hl => by simp [errEnv] at hl)
    (fun s hs => by simp [errEnv] at hs)
    (fun s hs => by simp [errEnv, grayOf] at hs)
    (fun s hs => by simp [errEnv, grayOf] at hs)

/-! ## Google Sheets push (src/google_sheets.py, `push_shipments_to_sheets`) -/

/-- The header row set up by `setup_headers`. -/
def SHEET_HEADERS : List String :=
  ["ID", "Mã QR Code", "IMEI", "Tên Thiết Bị", "Dung Lượng", "Nhà Cung Cấp",
   "Trạng Thái", "Thời Gian Gửi", "Thời Gian Nhận", "Người Tạo",
   "Người Cập Nhật", "Ghi Chú", "Thời Gian Đồng Bộ"]

/-- A worksheet: a list of rows of cell strings. -/
structure Sheet where
  rows : List (List String)
deriving DecidableEq, Repr

/-- `setup_headers` (lines 59-93): if row 1 is absent or differs from the
expected headers, the worksheet is cleared and the header row written;
otherwise it is untouched. -/
def setup_headers (ws : Sheet) : Sheet :=
  if ws.rows.headD [] ≠ SHEET_HEADERS then { rows := [SHEET_HEADERS] } else ws

/-- One row of the shipments DataFrame handed to the push (string-valued
columns; nullable columns as options, pushed as empty strings). -/
structure SheetShipmentRow where
  id : String
  qr_code : String
  imei : String
  device_name : String
  capacity : String
  supplier : String
  status : String
  sent_time : String
  received_time : Option String
  created_by : String
  updated_by : Option String
  notes : Option String
deriving DecidableEq, Repr

/-- The flattened row built for one shipment (lines 136-150). -/
def rowData (r : SheetShipmentRow) (sync_time : String) : List String :=
  [r.id, r.qr_code, r.imei, r.device_name, r.capacity, r.supplier, r.status,
   r.sent_time, r.received_time.getD "", r.created_by, r.updated_by.getD "",
   r.notes.getD "", sync_time]

/-- The existing ids read from column A below the header (lines 160-161):
non-empty first-column values, stripped. -/
def existing_ids_of (ws : Sheet) : List String :=
  (((ws.rows.drop 1).map (fun row => row.headD "")).filter
    (fun v => v != "")).map pyStripS

/-- Result dict of `push_shipments_to_sheets`. -/
structure PushResult where
  success : Bool
  message : String
  rows_added : Nat
deriving DecidableEq, Repr

/-- `push_shipments_to_sheets` (lines 96-194): empty input fails; headers
are ensured; in replace mode everything below the header is cleared; in
append mode rows whose first column (the id) already appears in the
target's first column are dropped; remaining rows are appended, and when
none remain in append mode a success result reporting no new data is
returned. -/
def push_shipments_to_sheets (df : List SheetShipmentRow) (append_mode : Bool)
    (ws : Sheet) (sync_time : String) : PushResult × Sheet :=
  if df.isEmpty then
    ({ success := false,
       message := "Không có dữ liệu để push lên Google Sheets",
       rows_added := 0 }, ws)
  else
    let ws1 := setup_headers ws
    let rows0 := df.map (fun r => rowData r sync_time)
    let ws2 := if append_mode then ws1 else { rows := ws1.rows.take 1 }
    let rows_to_add :=
      if append_mode then
        rows0.filter (fun row =>
          !((existing_ids_of ws1).contains (pyStripS (row.headD ""))))
      else rows0
    if !rows_to_add.isEmpty then
      ({ success := true,
         message := "Đã push " ++ toString rows_to_add.length ++
           " dòng dữ liệu lên Google Sheets thành công!",
         rows_added := rows_to_add.length },
       { rows := ws2.rows ++ rows_to_add })
    else if append_mode then
      ({ success := true,
         message := "Tất cả dữ liệu đã tồn tại trong Google Sheets. Không có dữ liệu mới để thêm.",
         rows_added := 0 }, ws2)
    else
      ({ success := true,
         message := "Đã push 0 dòng dữ liệu lên Google Sheets thành công!",
         rows_added := 0 }, ws2)

/-- Claim C9: in append mode (with the header row in place) the rows
appended are exactly the input rows whose id is not already in the target's
first column, and when every input row's id already exists, nothing is
appended and the push returns success with the no-new-data message and
zero rows added, leaving the worksheet unchanged. -/
theorem push_append_skips_existing (df : List SheetShipmentRow) (ws : Sheet)
    (t : String) (hdr : ws.rows.headD [] = SHEET_HEADERS) (hne : df ≠ []) :
    (push_shipments_to_sheets df true ws t).2.rows =
      ws.rows ++ (df.map (fun r => rowData r t)).filter
        (fun row => !((existing_ids_of ws).contains (pyStripS (row.headD "")))) ∧
    ((∀ r ∈ df, (existing_ids_of ws).contains (pyStripS r.id) = true) →
      push_shipments_to_sheets df true ws t =
        ({ success := true,
           message := "Tất cả dữ liệu đã tồn tại trong Google Sheets. Không có dữ liệu mới để thêm.",
           rows_added := 0 }, ws)) := by
  have hie : df.isEmpty = false := by
    cases df with
    | nil => exact absurd rfl hne
    | cons a l => rfl
  have hsetup : setup_headers ws = ws := by
    unfold setup_headers
    rw [hdr]
    simp
  unfold push_shipments_to_sheets
  rw [hie, hsetup]
  simp only [Bool.false_eq_true, if_false, if_true]
  set rows_to_add := (df.map (fun r => rowData r t)).filter
    (fun row => !((existing_ids_of ws).contains (pyStripS (row.headD ""))))
    with hrows
  by_cases hempty : rows_to_add.isEmpty = true
  · have hnil : rows_to_add = [] := List.isEmpty_iff.mp hempty
    rw [hempty]
    constructor
    · simp [hnil]
    · intro _
      rfl
  · have hbool : rows_to_add.isEmpty = false := by
      cases hb : rows_to_add.isEmpty
      · rfl
      · exact absurd hb hempty
    rw [hbool]
    constructor
    · rfl
    · intro hall
      exfalso
      apply hempty
      have : rows_to_add = [] := by
        rw [hrows]
        rw [List.filter_eq_nil_iff]
        intro row hrow
        rcases List.mem_map.mp hrow with ⟨r, hr, hrd⟩
        subst hrd
        simp only [rowData, List.headD_cons]
        rw [hall r hr]
        simp
      rw [this]
      rfl

/-- Concrete worksheet for the C9 witness: headers plus one data row with
id "1". -/
def wsW : Sheet :=
  { rows := [SHEET_HEADERS,
     ["1", "Q1", "I", "D", "64", "GHN", "Đang gửi", "t0", "", "admin", "",
      "", "s0"]] }

/-- Concrete DataFrame for the C9 witness: a single shipment whose id "1"
already exists in `wsW`. -/
def dfW : List SheetShipmentRow :=
  [{ id := "1", qr_code := "Q1", imei := "I", device_name := "D",
     capacity := "64", supplier := "GHN", status := "Đang gửi",
     sent_time := "t0", received_time := none, created_by := "admin",
     updated_by := none, notes := none }]

/-- Witness for claim C9: pushing `dfW` in append mode onto `wsW` adds
zero rows and reports no new data. -/
theorem push_append_skips_existing_witness :
    wsW.rows.headD [] = SHEET_HEADERS ∧ dfW ≠ [] ∧
    push_shipments_to_sheets dfW true wsW "s1" =
      ({ success := true,
         message := "Tất cả dữ liệu đã tồn tại trong Google Sheets. Không có dữ liệu mới để thêm.",
         rows_added := 0 }, wsW) := by
  refine ⟨rfl, by decide, ?_⟩
  exact (push_append_skips_existing dfW wsW "s1" rfl (by decide)).2 (by decide)

/-! ## Login check (src/auth.py `check_login`, src/config.py `USERS`) -/

/-- The static credential table `USERS` from `src/config.py`. -/
def USERS : List (String × String) :=
  [("admin", "admin123"), ("user", "user123"), ("staff", "staff123")]

/-- Lookup in the static table (`username in USERS and USERS[username]`). -/
def usersLookup (u : String) : Option String :=
  (USERS.find? (fun p => p.1 == u)).map (fun p => p.2)

/-- `get_user` from `src/database.py` restricted to the password column:
the Users table keyed by username (primary key, so first match). -/
def get_user_password (db : List (String × String)) (u : String) :
    Option String :=
  (db.find? (fun p => p.1 == u)).map (fun p => p.2)

/-- `check_login` from `src/auth.py` lines 78-95: accept when the database
stores a matching password; otherwise fall back to the static config
table. -/
def check_login (db : List (String × String)) (username password : String) :
    Bool :=
  match get_user_password db username with
  | some pw => if pw == password then true else usersLookup username == some password
  | none => usersLookup username == some password

/-- Claim C10: the login check succeeds exactly when the supplied password
matches the password stored in the user table or the static-table password
for that username — so a static default stays valid even when the database
stores a different password for the same username. -/
theorem check_login_iff (db : List (String × String)) (u p : String) :
    check_login db u p = true ↔
      (∃ pw, get_user_password db u = some pw ∧ pw = p) ∨
        usersLookup u = some p := by
  unfold check_login
  cases hdb : get_user_password db u with
  | none =>
    constructor
    · intro h
      exact Or.inr (by simpa using h)
    · rintro (⟨pw, hpw, _⟩ | h)
      · exact Option.noConfusion hpw
      · simpa using h
  | some pw =>
    show (if (pw == p) = true then true else usersLookup u == some p) = true ↔ _
    by_cases hp : (pw == p) = true
    · rw [if_pos hp]
      constructor
      · intro _
        exact Or.inl ⟨pw, rfl, by simpa using hp⟩
      · intro _
        rfl
    · rw [if_neg hp]
      constructor
      · intro h
        exact Or.inr (by simpa using h)
      · rintro (⟨pw2, hpw2, hpe⟩ | h)
        · injection hpw2 with he
          exact absurd (by simp [he, hpe]) hp
        · simpa using h

end StockHang
